import Mathlib

/-!
Shallow embedding of the support-ticket assignment engine
(ticket_assignment_system.py, with the validator of utils.py) and proofs
about it.  Python floats are modelled as exact rationals; the wall clock
(datetime.now) is an explicit parameter; the per-ticket skill cache and the
assignment log are explicit state threaded through the functions.
-/

/- Core marks the Rat arithmetic operations irreducible because they carry
native implementations; re-marking them semireducible lets the kernel
evaluate concrete rational arithmetic in decide proofs.  This only changes
unfolding hints, not any definition. -/
set_option allowUnsafeReducibility true in
attribute [semireducible] Rat.add Rat.mul Rat.sub Rat.div Rat.neg Rat.inv Rat.blt Rat.ofScientific

namespace TicketSystem

/-- Lowercasing as used for Python str.lower on the ASCII inputs of this
system: map Char.toLower over the characters. -/
def strLower (s : String) : String := String.mk (s.data.map Char.toLower)

/-- Character-list prefix test. -/
def isPrefixL : List Char → List Char → Bool
  | [], _ => true
  | _ :: _, [] => false
  | a :: as, b :: bs => a = b && isPrefixL as bs

/-- Substring occurrence on character lists (semantics of the Python
expression needle in haystack on strings). -/
def hasSubstrL (needle : List Char) : List Char → Bool
  | [] => isPrefixL needle []
  | c :: t => isPrefixL needle (c :: t) || hasSubstrL needle t

/-- Python needle in hay for strings. -/
def strIn (needle hay : String) : Bool := hasSubstrL needle.data hay.data

/-- Association-list lookup, modelling Python dict access d.get(k) /
k in d on the insertion-ordered dicts of this program. -/
def alookup {β : Type} (m : List (String × β)) (k : String) : Option β :=
  (m.find? (fun p => p.1 == k)).map (fun p => p.2)

/-- Python dict insertion d[k] = v: overwrite in place if the key exists
(keeping its position), else append at the end. -/
def dictInsert {β : Type} (m : List (String × β)) (k : String) (v : β) :
    List (String × β) :=
  if (m.find? (fun p => p.1 == k)).isSome then
    m.map (fun p => if p.1 == k then (k, v) else p)
  else m ++ [(k, v)]

/-- Build a Python dict comprehension {key(x): x for x in l}: positions are
those of first insertion, values are last-write-wins. -/
def buildDict {β : Type} (key : β → String) (l : List β) : List (String × β) :=
  l.foldl (fun m b => dictInsert m (key b) b) []

/-- Ticket record as loaded from the dataset (the fields the engine reads).
creation_timestamp is epoch seconds. -/
structure Ticket where
  ticket_id : String
  title : String
  description : String
  creation_timestamp : ℚ
deriving DecidableEq

/-- Agent record of the running system: the dataset fields the engine reads
plus the two bookkeeping fields added by load_data.  Skill proficiencies are
kept as an insertion-ordered mapping. -/
structure Agent where
  agent_id : String
  name : String
  skills : List (String × ℚ)
  experience_level : ℚ
  availability_status : String
  current_load : ℚ
  assigned_tickets : List String
  current_priority_load : ℚ
deriving DecidableEq

/-- Agent record as it appears in the dataset, before load_data adds the
bookkeeping fields.  Note that current_load is part of the dataset record
and load_data takes it over unchanged. -/
structure AgentIn where
  agent_id : String
  name : String
  skills : List (String × ℚ)
  experience_level : ℚ
  availability_status : String
  current_load : ℚ
deriving DecidableEq

/-- TicketPriority dataclass. -/
structure TicketPriority where
  ticket_id : String
  priority_score : ℚ
  urgency_level : String
  business_impact : ℚ
  affected_users : ℚ
  security_risk : ℚ
deriving DecidableEq

/-- Assignment output record.  The unassigned branch of the source builds a
dict without the skill/score keys; those are Option fields, none meaning
the key is absent.  The timestamp key (wall-clock isoformat string) carries
no decision content and is omitted. -/
structure Assignment where
  ticket_id : String
  title : String
  assigned_agent_id : Option String
  assigned_agent_name : String
  priority : String
  priority_score : ℚ
  business_impact : Option ℚ
  affected_users : Option ℚ
  security_risk : Option ℚ
  agent_match_score : Option ℚ
  rationale : String
  required_skills : Option (List String)
  agent_skills_matched : Option (List String)
deriving DecidableEq

/-- Configuration (the keys consumed by the engine; skill_categories is
presentation-only and never read by the claimed code paths). -/
structure Config where
  max_load_per_agent : ℚ
  skill_match_weight : ℚ
  experience_weight : ℚ
  workload_weight : ℚ
  priority_weight : ℚ
  critical_keywords : List String
  high_priority_keywords : List String
deriving DecidableEq

/-- Default configuration of _load_config. -/
def defaultConfig : Config :=
  ⟨10, 0.4, 0.2, 0.2, 0.2,
   ["critical", "urgent", "down", "outage", "security",
    "breach", "attack", "production", "business-critical"],
   ["failing", "error", "unable", "blocked", "stopped"]⟩

/-- Skill-requirement cache: ticket_id to extracted mapping. -/
abbrev Cache := List (String × List (String × ℚ))

/-- Resolution-history entry (resolved, total); the running system never
writes to the history, so it is empty throughout a run. -/
abbrev History := List (String × (ℚ × ℚ))

/-- The fixed skill lexicon of extract_required_skills. -/
def skill_keywords : List (String × List String) :=
  [("Networking", ["network", "vpn", "connection", "connectivity", "lan", "wan"]),
   ("VPN_Troubleshooting", ["vpn", "tunnel", "remote", "connection dropping"]),
   ("Linux_Administration", ["linux", "ubuntu", "debian", "centos", "bash", "shell"]),
   ("Cloud_AWS", ["aws", "amazon", "ec2", "s3", "lambda"]),
   ("Cloud_Azure", ["azure", "microsoft cloud", "app service"]),
   ("Hardware_Diagnostics", ["hardware", "laptop", "desktop", "pc", "computer", "fan", "battery"]),
   ("Windows_Server_2022", ["windows server", "server 2022", "windows 2022"]),
   ("Active_Directory", ["active directory", "ad", "domain", "ldap", "group policy"]),
   ("Microsoft_365", ["microsoft 365", "m365", "office 365", "outlook", "teams", "sharepoint"]),
   ("Network_Security", ["firewall", "security", "breach", "attack", "vulnerability"]),
   ("Database_SQL", ["database", "sql", "query", "mysql", "postgresql", "mssql"]),
   ("SharePoint_Online", ["sharepoint", "document library", "site collection"]),
   ("PowerShell_Scripting", ["powershell", "ps1", "script"]),
   ("Endpoint_Security", ["endpoint", "antivirus", "malware", "edr"]),
   ("DevOps_CI_CD", ["devops", "ci/cd", "jenkins", "pipeline", "deployment"]),
   ("Kubernetes_Docker", ["kubernetes", "k8s", "docker", "container", "pod"]),
   ("Voice_VoIP", ["voip", "phone", "voice", "telephony", "sip"]),
   ("Printer_Troubleshooting", ["printer", "print", "printing"]),
   ("Mac_OS", ["mac", "macos", "osx", "apple", "macbook"]),
   ("SaaS_Integrations", ["saas", "integration", "api", "webhook", "sso", "saml"]),
   ("Phishing_Analysis", ["phishing", "spam", "suspicious email", "scam"]),
   ("SSL_Certificates", ["ssl", "tls", "certificate", "https", "encryption"]),
   ("DNS_Configuration", ["dns", "domain", "nameserver", "resolution"]),
   ("Endpoint_Management", ["endpoint", "mdm", "intune", "device management"]),
   ("Web_Server_Apache_Nginx", ["apache", "nginx", "web server", "http"]),
   ("Firewall_Configuration", ["firewall", "iptables", "pf", "acl", "rules"]),
   ("Identity_Management", ["identity", "iam", "okta", "auth0", "authentication"]),
   ("Laptop_Repair", ["laptop", "notebook", "screen", "keyboard", "touchpad"]),
   ("Network_Cabling", ["cable", "ethernet", "cat5", "cat6", "rj45"]),
   ("Switch_Configuration", ["switch", "vlan", "trunk", "spanning tree"]),
   ("Routing_Protocols", ["routing", "ospf", "bgp", "eigrp", "route"]),
   ("Cisco_IOS", ["cisco", "ios", "ccna", "router", "switch"]),
   ("Antivirus_Malware", ["antivirus", "malware", "virus", "trojan", "ransomware"]),
   ("Security_Audits", ["audit", "compliance", "assessment", "vulnerability scan"]),
   ("SIEM_Logging", ["siem", "log", "splunk", "elastic", "monitoring"]),
   ("ETL_Processes", ["etl", "extract", "transform", "load", "data pipeline"]),
   ("Data_Warehousing", ["warehouse", "data lake", "bigquery", "redshift"]),
   ("PowerBI_Tableau", ["powerbi", "tableau", "dashboard", "visualization"]),
   ("API_Troubleshooting", ["api", "rest", "graphql", "endpoint", "integration"]),
   ("Software_Licensing", ["license", "activation", "subscription", "seat"]),
   ("Virtualization_VMware", ["vmware", "virtual", "vm", "esxi", "vcenter"]),
   ("Python_Scripting", ["python", "py", "script", "automation"])]

/-- Lowercased title-space-description text a ticket is scanned over. -/
def combinedText (t : Ticket) : String :=
  strLower t.title ++ " " ++ strLower t.description

/-- Number of trigger phrases of a keyword list occurring in a text. -/
def matchCount (kws : List String) (text : String) : ℕ :=
  (kws.filter (fun kw => strIn kw text)).length

/-- Cache-free body of extract_required_skills: for each lexicon skill
count the trigger phrases occurring in the combined text; keep the skill
with importance min(count / number-of-phrases, 1.0) when the count is
positive, omit it otherwise. -/
def extract_required_skills_pure (t : Ticket) : List (String × ℚ) :=
  let combined := combinedText t
  skill_keywords.filterMap (fun p =>
    let score := matchCount p.2 combined
    if score > 0 then some (p.1, min ((score : ℚ) / (p.2.length : ℚ)) 1) else none)

/-- extract_required_skills with its per-ticket_id cache: return the cached
mapping when the ticket_id is present, else compute and store it. -/
def extract_required_skills (cache : Cache) (t : Ticket) :
    List (String × ℚ) × Cache :=
  match alookup cache t.ticket_id with
  | some r => (r, cache)
  | none =>
    let r := extract_required_skills_pure t
    (r, cache ++ [(t.ticket_id, r)])

/-- The eight fixed security keywords of calculate_ticket_priority. -/
def security_keywords : List String :=
  ["breach", "attack", "phishing", "malware", "virus",
   "unauthorized", "suspicious", "security"]

/-- calculate_ticket_priority: the multi-factor urgency score and discrete
level.  now is the value of datetime.now().timestamp(). -/
def calculate_ticket_priority (cfg : Config) (t : Ticket) (now : ℚ) :
    TicketPriority :=
  let combined := combinedText t
  let critical_count : ℕ := (cfg.critical_keywords.filter (fun k => strIn k combined)).length
  let high_priority_count : ℕ := (cfg.high_priority_keywords.filter (fun k => strIn k combined)).length
  let business_impact : ℚ :=
    if strIn "production" combined || strIn "business-critical" combined then 1
    else if strIn "public" combined || strIn "customer" combined then 0.8
    else if strIn "internal" combined || strIn "employee" combined then 0.5
    else 0.3
  let affected_users : ℚ :=
    if strIn "all" combined || strIn "everyone" combined || strIn "company" combined then 100
    else if strIn "department" combined || strIn "team" combined || strIn "multiple" combined then 20
    else if strIn "group" combined then 10
    else 1
  let security_count : ℕ := (security_keywords.filter (fun k => strIn k combined)).length
  let security_risk : ℚ := min ((security_count : ℚ) / (security_keywords.length : ℚ)) 1
  let age_hours : ℚ := (now - t.creation_timestamp) / 3600
  let time_urgency : ℚ := min (age_hours / 24) 1
  let priority_score : ℚ :=
    (critical_count : ℚ) * 10 + (high_priority_count : ℚ) * 5 +
      business_impact * 8 + affected_users / 10 + security_risk * 9 +
      time_urgency * 3
  let urgency_level : String :=
    if priority_score ≥ 20 then "CRITICAL"
    else if priority_score ≥ 15 then "HIGH"
    else if priority_score ≥ 10 then "MEDIUM"
    else "LOW"
  ⟨t.ticket_id, priority_score, urgency_level, business_impact,
   affected_users, security_risk⟩

/-- Priority-capability term of calculate_agent_score. -/
def priorityCapability (agent : Agent) (tp : TicketPriority) : ℚ :=
  if tp.urgency_level = "CRITICAL" ∧ agent.experience_level ≥ 8 then 10
  else if tp.urgency_level = "HIGH" ∧ agent.experience_level ≥ 6 then 8
  else if tp.urgency_level = "MEDIUM" ∧ agent.experience_level ≥ 4 then 6
  else 5

/-- Performance term of calculate_agent_score: resolution rate times ten if
the agent has history with positive total, else the neutral 5.  The running
system never writes history, so in a run this is always 5. -/
def performanceScore (hist : History) (agent : Agent) : ℚ :=
  match alookup hist agent.agent_id with
  | some pr => if pr.2 > 0 then pr.1 / pr.2 * 10 else 5
  | none => 5

/-- Weighted sum of calculate_agent_score before the multiplicative
penalties, as a function of the extracted required-skill mapping. -/
def agentBaseScore (cfg : Config) (hist : History) (agent : Agent)
    (tp : TicketPriority) (required_skills : List (String × ℚ)) : ℚ :=
  let skill_sum : ℚ := required_skills.foldl
    (fun acc p =>
      match alookup agent.skills p.1 with
      | some lvl => acc + lvl * p.2
      | none => acc) 0
  let skill_match_score : ℚ :=
    if required_skills ≠ [] then skill_sum / (required_skills.length : ℚ) else 5
  let experience_score : ℚ := min (agent.experience_level / 10) 1 * 10
  let workload_score : ℚ :=
    (1 - agent.current_load / cfg.max_load_per_agent) * 10
  skill_match_score * cfg.skill_match_weight +
    experience_score * cfg.experience_weight +
    workload_score * cfg.workload_weight +
    priorityCapability agent tp * cfg.priority_weight +
    performanceScore hist agent * 0.1

/-- Multiplicative penalties applied after the weighted sum: times 0.1 when
not Available, then times 0.01 when current_load has reached max_load. -/
def applyPenalties (cfg : Config) (agent : Agent) (base : ℚ) : ℚ :=
  let s1 := if agent.availability_status ≠ "Available" then base * 0.1 else base
  if agent.current_load ≥ cfg.max_load_per_agent then s1 * 0.01 else s1

/-- calculate_agent_score: suitability of an agent for a ticket, threading
the skill-requirement cache it consults. -/
def calculate_agent_score (cfg : Config) (hist : History) (cache : Cache)
    (agent : Agent) (t : Ticket) (tp : TicketPriority) : ℚ × Cache :=
  let er := extract_required_skills cache t
  (applyPenalties cfg agent (agentBaseScore cfg hist agent tp er.1), er.2)

/-- Cache-free agent score (the score computed from an empty cache). -/
def agentScore (cfg : Config) (hist : History) (agent : Agent) (t : Ticket)
    (tp : TicketPriority) : ℚ :=
  applyPenalties cfg agent
    (agentBaseScore cfg hist agent tp (extract_required_skills_pure t))

/-- System state: the dicts of agents and tickets in insertion order, the
assignment log, the skill cache, the (never written) performance history
and the configuration. -/
structure SysState where
  agents : List Agent
  tickets : List Ticket
  assignments : List Assignment
  cache : Cache
  history : History
  config : Config
deriving DecidableEq

/-- Drain order of the priority queue of assign_tickets.  TicketPriority
defines a lt b as a.priority_score greater than b.priority_score, so the
Python heap pops tickets in non-increasing priority_score order, with
unspecified order among equal scores; this models that contract directly
(sorting by the same comparison), instantiating the unspecified tie order
with stable order. -/
def tpOrd : TicketPriority → TicketPriority → Prop :=
  fun a b => b.priority_score ≤ a.priority_score

instance : DecidableRel tpOrd :=
  fun a b => inferInstanceAs (Decidable (b.priority_score ≤ a.priority_score))

instance : IsTotal TicketPriority tpOrd :=
  ⟨fun a b => le_total b.priority_score a.priority_score⟩

instance : IsTrans TicketPriority tpOrd :=
  ⟨fun _ _ _ h1 h2 => le_trans h2 h1⟩

/-- Order in which the heap of assign_tickets yields the ticket
priorities. -/
def drainOrder (tps : List TicketPriority) : List TicketPriority :=
  List.insertionSort tpOrd tps

/-- One iteration of the inner loop of assign_tickets over the agent dict:
score the agent against the ticket with the threaded cache, and take over
as best on a strictly greater score only. -/
def selStep (cfg : Config) (hist : History) (t : Ticket) (tp : TicketPriority)
    (acc : Option String × ℚ × Cache) (ag : Agent) : Option String × ℚ × Cache :=
  let s := calculate_agent_score cfg hist acc.2.2 ag t tp
  if s.1 > acc.2.1 then (some ag.agent_id, s.1, s.2)
  else (acc.1, acc.2.1, s.2)

/-- Inner loop of assign_tickets over the agent dict: track the best agent
id and score, starting from best_agent_id None and best_score minus one,
updating on strictly greater scores only, while threading the cache. -/
def selectBest (cfg : Config) (hist : History) (agents : List Agent)
    (cache : Cache) (t : Ticket) (tp : TicketPriority) :
    Option String × ℚ × Cache :=
  agents.foldl (selStep cfg hist t tp) (none, -1, cache)

/-- Cache-free restatement of the inner loop over id-score pairs, used to
characterise the selection rule. -/
def selAux : Option String × ℚ → List (String × ℚ) → Option String × ℚ
  | acc, [] => acc
  | acc, p :: rest =>
    if p.2 > acc.2 then selAux (some p.1, p.2) rest else selAux acc rest

/-- Running maximum of the scores of an id-score list. -/
def foldlMax (s0 : ℚ) (l : List (String × ℚ)) : ℚ :=
  l.foldl (fun m p => max m p.2) s0

/-- Python truthiness of the Optional[str] best_agent_id: None and the
empty string are falsy. -/
def pythonTruthy : Option String → Bool
  | none => false
  | some s => s != ""

/-- Python round(x, 2), modelled as rounding to the nearest multiple of one
hundredth (the float/banker rounding of exact halves is immaterial to every
claim). -/
def round2 (q : ℚ) : ℚ := (round (q * 100) : ℚ) / 100

/-- Decimal-free rendering of a rational for rationale strings; stands in
for the Python numeric formatting, which no claim inspects. -/
def ratStr (q : ℚ) : String :=
  if q.den = 1 then toString q.num
  else toString q.num ++ "/" ++ toString q.den

/-- Rationale string of the assigned branch of assign_tickets. -/
def mkAssignedRationale (agent : Agent) (aid : String) (tp : TicketPriority)
    (matched_skills : List String) (best_score : ℚ) : String :=
  let skillParts : List String :=
    if matched_skills ≠ [] then
      ["Strong skills in " ++ String.intercalate ", "
        ((matched_skills.take 3).map
          (fun s => s ++ " (" ++ ratStr ((alookup agent.skills s).getD 0) ++ ")"))]
    else []
  let expPart : String :=
    if agent.experience_level ≥ 10 then "senior expert level"
    else if agent.experience_level ≥ 7 then "experienced professional"
    else if agent.experience_level ≥ 4 then "competent handler"
    else "developing expertise"
  let loadParts : List String :=
    if agent.current_load ≤ 2 then ["optimal workload capacity"]
    else if agent.current_load ≤ 4 then ["balanced workload"]
    else []
  let capParts : List String :=
    if tp.urgency_level = "CRITICAL" ∨ tp.urgency_level = "HIGH" then
      ["capable of handling " ++ tp.urgency_level ++ " priority"]
    else []
  "Assigned to " ++ agent.name ++ " (" ++ aid ++ ") - " ++
    String.intercalate ", " (skillParts ++ [expPart] ++ loadParts ++ capParts) ++
    ". Match score: " ++ ratStr (round2 best_score) ++ ", Priority: " ++
    tp.urgency_level

/-- The explicitly-unassigned Assignment record of assign_tickets. -/
def unassignedRecord (ticket : Ticket) (tp : TicketPriority) : Assignment :=
  ⟨ticket.ticket_id, ticket.title, none, "UNASSIGNED", tp.urgency_level,
   round2 tp.priority_score, none, none, none, none,
   "No suitable agent available - requires escalation or additional resources",
   none, none⟩

/-- Commit branch of assign_tickets: build the assignment record from the
winning agent and mutate that agent in place (load, assigned list,
accumulated priority load). -/
def commitAssign (st : SysState) (ticket : Ticket) (tp : TicketPriority)
    (aid : String) (best_score : ℚ) (cache1 : Cache) : SysState :=
  match st.agents.find? (fun a => a.agent_id == aid) with
  | none => st
  | some agent =>
    let er := extract_required_skills cache1 ticket
    let required_skills := er.1
    let matched_skills :=
      (required_skills.map (fun p => p.1)).filter
        (fun s => (alookup agent.skills s).isSome)
    let record : Assignment :=
      ⟨ticket.ticket_id, ticket.title, some aid, agent.name, tp.urgency_level,
       round2 tp.priority_score, some (round2 tp.business_impact),
       some tp.affected_users, some (round2 tp.security_risk),
       some (round2 best_score),
       mkAssignedRationale agent aid tp matched_skills best_score,
       some ((required_skills.map (fun p => p.1)).take 5),
       some (matched_skills.take 5)⟩
    ⟨st.agents.map (fun a =>
        if a.agent_id == aid then
          ⟨a.agent_id, a.name, a.skills, a.experience_level,
           a.availability_status, a.current_load + 1,
           a.assigned_tickets ++ [ticket.ticket_id],
           a.current_priority_load + tp.priority_score⟩
        else a),
     st.tickets, st.assignments ++ [record], er.2, st.history, st.config⟩

/-- Body of the drain loop of assign_tickets for one popped ticket
priority.  The none branch of the ticket lookup is unreachable in a run
(the heap only ever holds priorities of loaded tickets; Python would raise
KeyError there). -/
def processTicket (st : SysState) (tp : TicketPriority) : SysState :=
  match st.tickets.find? (fun t => t.ticket_id == tp.ticket_id) with
  | none => st
  | some ticket =>
    let sel := selectBest st.config st.history st.agents st.cache ticket tp
    if pythonTruthy sel.1 then
      commitAssign st ticket tp (sel.1.getD "") sel.2.1 sel.2.2
    else
      ⟨st.agents, st.tickets, st.assignments ++ [unassignedRecord ticket tp],
       sel.2.2, st.history, st.config⟩

/-- assign_tickets: compute a priority for every loaded ticket, drain them
in heap order, and process each one. -/
def assign_tickets (st : SysState) (now : ℚ) : SysState :=
  let tps := st.tickets.map (fun t => calculate_ticket_priority st.config t now)
  (drainOrder tps).foldl processTicket st

/-- load_data on one agent record: the bookkeeping fields assigned_tickets
and current_priority_load are initialised, while current_load is taken over
from the dataset record unchanged. -/
def load_agent (a : AgentIn) : Agent :=
  ⟨a.agent_id, a.name, a.skills, a.experience_level, a.availability_status,
   a.current_load, [], 0⟩

/-- load_data: build the two dicts keyed by agent_id / ticket_id (duplicate
identifiers overwrite, last write wins) and initialise the per-agent
bookkeeping; the assignment log, cache and history start empty and the
configuration is the default one. -/
def load_data (agentsIn : List AgentIn) (ticketsIn : List Ticket) : SysState :=
  ⟨(buildDict (fun a => a.agent_id) agentsIn).map (fun p => load_agent p.2),
   (buildDict (fun t => t.ticket_id) ticketsIn).map (fun p => p.2),
   [], [], [], defaultConfig⟩

/-- Summary block of generate_analytics. -/
structure AnalyticsSummary where
  total_tickets : ℕ
  total_agents : ℕ
  assigned_tickets : ℕ
  unassigned_tickets : ℕ
deriving DecidableEq

/-- Summary counts of generate_analytics: assigned/unassigned are counted
by Python truthiness of the assigned_agent_id entry. -/
def generate_analytics_summary (st : SysState) : AnalyticsSummary :=
  ⟨st.tickets.length, st.agents.length,
   (st.assignments.filter (fun a => pythonTruthy a.assigned_agent_id)).length,
   (st.assignments.filter (fun a => !pythonTruthy a.assigned_agent_id)).length⟩

/-- Ticket record as a raw JSON object: every field may be absent.  Used to
relate the external validator of utils.py to the fields the engine actually
reads. -/
structure TicketJ where
  ticket_id : Option String
  title : Option String
  description : Option String
  creation_timestamp : Option ℚ
deriving DecidableEq

/-- Agent record as a raw JSON object. -/
structure AgentJ where
  agent_id : Option String
  name : Option String
  skills : Option (List (String × ℚ))
  experience_level : Option ℚ
  availability_status : Option String
  current_load : Option ℚ
deriving DecidableEq

/-- Per-ticket check of validate_data in utils.py: only ticket_id and
description are required. -/
def validate_ticket (t : TicketJ) : Bool :=
  t.ticket_id.isSome && t.description.isSome

/-- Per-agent check of validate_data in utils.py: only agent_id and skills
are required. -/
def validate_agent (a : AgentJ) : Bool :=
  a.agent_id.isSome && a.skills.isSome

/-- calculate_ticket_priority on a raw record: returns none exactly when a
field it dereferences is absent (a Python KeyError). -/
def calculate_ticket_priorityJ (t : TicketJ) (now : ℚ) : Option TicketPriority :=
  match t.ticket_id, t.title, t.description, t.creation_timestamp with
  | some tid, some ti, some d, some ts =>
    some (calculate_ticket_priority defaultConfig ⟨tid, ti, d, ts⟩ now)
  | _, _, _, _ => none

/-- calculate_agent_score on a raw agent record: returns none exactly when
a field it dereferences is absent (a Python KeyError).  The name field is
not read by scoring. -/
def calculate_agent_scoreJ (a : AgentJ) (t : Ticket) (tp : TicketPriority) :
    Option ℚ :=
  match a.agent_id, a.skills, a.experience_level, a.availability_status,
      a.current_load with
  | some aid, some sk, some el, some av, some cl =>
    some (agentScore defaultConfig [] ⟨aid, "", sk, el, av, cl, [], 0⟩ t tp)
  | _, _, _, _, _ => none

/-- Spec 4.2 step 2, written from the spec: number of configured critical
keywords present as substrings of the lowercased combined text. -/
def specCriticalCount (cfg : Config) (t : Ticket) : ℚ :=
  ((cfg.critical_keywords.filter (fun k => strIn k (combinedText t))).length : ℚ)

/-- Spec 4.2 step 2 for the high-priority keyword list. -/
def specHighCount (cfg : Config) (t : Ticket) : ℚ :=
  ((cfg.high_priority_keywords.filter (fun k => strIn k (combinedText t))).length : ℚ)

/-- Spec 4.2 step 3: business impact by the first matching rule. -/
def specBusinessImpact (t : Ticket) : ℚ :=
  if strIn "production" (combinedText t) || strIn "business-critical" (combinedText t) then 1.0
  else if strIn "public" (combinedText t) || strIn "customer" (combinedText t) then 0.8
  else if strIn "internal" (combinedText t) || strIn "employee" (combinedText t) then 0.5
  else 0.3

/-- Spec 4.2 step 4: affected-user estimate by the first matching rule. -/
def specAffectedUsers (t : Ticket) : ℚ :=
  if strIn "all" (combinedText t) || strIn "everyone" (combinedText t) ||
      strIn "company" (combinedText t) then 100
  else if strIn "department" (combinedText t) || strIn "team" (combinedText t) ||
      strIn "multiple" (combinedText t) then 20
  else if strIn "group" (combinedText t) then 10
  else 1

/-- Spec 4.2 step 5: count of the eight fixed security keywords over eight,
capped at one. -/
def specSecurityRisk (t : Ticket) : ℚ :=
  min (((security_keywords.filter (fun k => strIn k (combinedText t))).length : ℚ) / 8) 1.0

/-- Spec 4.2 step 6: age in hours over 24, capped at one, with no clamp of
negative ages. -/
def specTimeUrgency (t : Ticket) (now : ℚ) : ℚ :=
  min (((now - t.creation_timestamp) / 3600) / 24) 1.0

/-- Spec 4.2 step 7: the claimed priority formula. -/
def specPriorityScore (cfg : Config) (t : Ticket) (now : ℚ) : ℚ :=
  10 * specCriticalCount cfg t + 5 * specHighCount cfg t +
    8 * specBusinessImpact t + specAffectedUsers t / 10 +
    9 * specSecurityRisk t + 3 * specTimeUrgency t now

/-- Pure scores of all agents for one ticket, in agent-dict order. -/
def agentScores (cfg : Config) (hist : History) (agents : List Agent)
    (t : Ticket) (tp : TicketPriority) : List ℚ :=
  agents.map (fun ag => agentScore cfg hist ag t tp)

/-- Final value of the running best_score of the inner loop: the maximum of
all agent scores and the initial minus one. -/
def bestScoreSpec (cfg : Config) (hist : History) (agents : List Agent)
    (t : Ticket) (tp : TicketPriority) : ℚ :=
  (agentScores cfg hist agents t tp).foldl max (-1)

/-- Specification of the selection rule: the first agent in dict order
whose score attains the maximum, provided the maximum strictly exceeds the
initial best_score of minus one; otherwise no agent. -/
def selectedAgentSpec (cfg : Config) (hist : History) (agents : List Agent)
    (t : Ticket) (tp : TicketPriority) : Option Agent :=
  if bestScoreSpec cfg hist agents t tp > -1 then
    agents.find? (fun ag =>
      agentScore cfg hist ag t tp == bestScoreSpec cfg hist agents t tp)
  else none

/-- A starting cache is consistent for a ticket when any entry it holds
under that ticket id is the mapping the extractor computes for the
ticket. -/
def CacheOKFor (cache : Cache) (t : Ticket) : Prop :=
  ∀ r, alookup cache t.ticket_id = some r → r = extract_required_skills_pure t

/-- Concrete ticket whose text matches no lexicon entry and no priority
keyword. -/
def tktB : Ticket := ⟨"TK1", "x", "y", 0⟩

/-- Concrete ticket with three printer trigger phrases. -/
def tktPrint : Ticket := ⟨"TK2", "printer", "print printing", 0⟩

/-- Concrete ticket sharing the identifier of tktOther but with different
text. -/
def tktFirst : Ticket := ⟨"T9", "printer", "print", 0⟩

/-- Concrete ticket with the same identifier as tktFirst and different
text. -/
def tktOther : Ticket := ⟨"T9", "network", "vpn", 0⟩

/-- Dataset agent arriving with a pre-set current_load of 1000. -/
def agOverIn : AgentIn := ⟨"A1", "Al", [], 0, "Available", 1000⟩

/-- Dataset agent arriving with a pre-set current_load of 3. -/
def agPreIn : AgentIn := ⟨"A2", "Bo", [], 5, "Available", 3⟩

/-- Unavailable agent at exactly max load. -/
def agBusy : Agent := ⟨"A1", "N1", [], 10, "Busy", 10, [], 0⟩

/-- Available agent with an enormous pre-set load, scoring far below
agBusy. -/
def agFar : Agent := ⟨"A2", "N2", [], 0, "Available", 10000, [], 0⟩

/-- Ordinary available dataset agent with no pre-set load. -/
def agNorm : AgentIn := ⟨"A3", "Cy", [], 5, "Available", 0⟩

/-- Priority snapshot of tktB at time zero. -/
def tpB : TicketPriority := calculate_ticket_priority defaultConfig tktB 0

/-- Raw ticket record passing the validator but lacking the title field
read by calculate_ticket_priority. -/
def tJmissingTitle : TicketJ := ⟨some "T1", none, some "d", some 0⟩

/-- Raw agent record passing the validator but lacking the
experience_level, availability_status and current_load fields read by
calculate_agent_score. -/
def aJmissingFields : AgentJ := ⟨some "A1", none, some [], none, none, none⟩

end TicketSystem

namespace TicketSystem

theorem alookup_nil {β : Type} (k : String) : alookup ([] : List (String × β)) k = none := rfl

theorem alookup_append_of_none {β : Type} (c l : List (String × β)) (k : String)
    (h : alookup c k = none) : alookup (c ++ l) k = alookup l k := by
  induction c with
  | nil => simp
  | cons p c ih =>
    simp only [alookup, List.find?] at h ⊢
    cases hpk : (p.1 == k) with
    | true => simp [hpk] at h
    | false =>
      simp only [hpk] at h ⊢
      exact ih h

theorem alookup_singleton_self {β : Type} (k : String) (v : β) :
    alookup [(k, v)] k = some v := by
  simp [alookup, List.find?]

theorem extract_of_hit (cache : Cache) (t : Ticket) (r : List (String × ℚ))
    (h : alookup cache t.ticket_id = some r) :
    extract_required_skills cache t = (r, cache) := by
  unfold extract_required_skills
  rw [h]

theorem extract_of_miss (cache : Cache) (t : Ticket)
    (h : alookup cache t.ticket_id = none) :
    extract_required_skills cache t =
      (extract_required_skills_pure t,
       cache ++ [(t.ticket_id, extract_required_skills_pure t)]) := by
  unfold extract_required_skills
  rw [h]

/-- After any call, the resulting cache holds the returned mapping under
the ticket id. -/
theorem extract_lookup_after (cache : Cache) (t : Ticket) :
    alookup (extract_required_skills cache t).2 t.ticket_id =
      some (extract_required_skills cache t).1 := by
  cases h : alookup cache t.ticket_id with
  | some r => rw [extract_of_hit cache t r h]; exact h
  | none =>
    rw [extract_of_miss cache t h]
    rw [alookup_append_of_none _ _ _ h]
    exact alookup_singleton_self _ _

theorem extract_fst_of_ok (cache : Cache) (t : Ticket) (h : CacheOKFor cache t) :
    (extract_required_skills cache t).1 = extract_required_skills_pure t := by
  cases hc : alookup cache t.ticket_id with
  | some r => rw [extract_of_hit cache t r hc]; exact h r hc
  | none => rw [extract_of_miss cache t hc]

theorem CacheOKFor_extract_snd (cache : Cache) (t : Ticket) (h : CacheOKFor cache t) :
    CacheOKFor (extract_required_skills cache t).2 t := by
  intro r hr
  rw [extract_lookup_after cache t] at hr
  cases hr
  exact extract_fst_of_ok cache t h

theorem calculate_agent_score_eq (cfg : Config) (hist : History) (cache : Cache)
    (agent : Agent) (t : Ticket) (tp : TicketPriority) :
    calculate_agent_score cfg hist cache agent t tp =
      (applyPenalties cfg agent
         (agentBaseScore cfg hist agent tp (extract_required_skills cache t).1),
       (extract_required_skills cache t).2) := rfl

theorem applyPenalties_eq (cfg : Config) (agent : Agent) (base : ℚ) :
    applyPenalties cfg agent base =
      (if agent.current_load ≥ cfg.max_load_per_agent then
        (if agent.availability_status ≠ "Available" then base * 0.1 else base) * 0.01
       else (if agent.availability_status ≠ "Available" then base * 0.1 else base)) := rfl

theorem calculate_agent_score_fst (cfg : Config) (hist : History) (cache : Cache)
    (agent : Agent) (t : Ticket) (tp : TicketPriority) (h : CacheOKFor cache t) :
    (calculate_agent_score cfg hist cache agent t tp).1 =
      agentScore cfg hist agent t tp := by
  rw [calculate_agent_score_eq, extract_fst_of_ok cache t h]
  rfl

theorem calculate_agent_score_snd (cfg : Config) (hist : History) (cache : Cache)
    (agent : Agent) (t : Ticket) (tp : TicketPriority) :
    (calculate_agent_score cfg hist cache agent t tp).2 =
      (extract_required_skills cache t).2 := rfl

/-- C6: when the agent is both unavailable and at or over max load, the two
multiplicative penalties stack, and the returned score is exactly one
thousandth of the unpenalized weighted sum. -/
theorem claim_C6 (cfg : Config) (hist : History) (cache : Cache) (agent : Agent)
    (t : Ticket) (tp : TicketPriority)
    (hav : agent.availability_status ≠ "Available")
    (hload : agent.current_load ≥ cfg.max_load_per_agent) :
    (calculate_agent_score cfg hist cache agent t tp).1 =
      0.001 * agentBaseScore cfg hist agent tp (extract_required_skills cache t).1 := by
  rw [calculate_agent_score_eq]
  show applyPenalties cfg agent _ = _
  rw [applyPenalties_eq, if_pos hload, if_pos hav]
  ring

theorem claim_C6_witness :
    agBusy.availability_status ≠ "Available" ∧
    agBusy.current_load ≥ defaultConfig.max_load_per_agent ∧
    (calculate_agent_score defaultConfig [] [] agBusy tktB tpB).1 =
      0.001 * agentBaseScore defaultConfig [] agBusy tpB (extract_required_skills [] tktB).1 :=
  ⟨by decide, by decide,
   claim_C6 defaultConfig [] [] agBusy tktB tpB (by decide) (by decide)⟩

/-- C7: when the extracted required-skill mapping of the ticket is empty,
the skill-match component is the neutral default 5 and no division by the
number of required skills takes place: the score is the penalty-adjusted
weighted sum built from the constant 5. -/
theorem claim_C7 (cfg : Config) (hist : History) (cache : Cache) (agent : Agent)
    (t : Ticket) (tp : TicketPriority)
    (hempty : extract_required_skills_pure t = [])
    (hok : CacheOKFor cache t) :
    (calculate_agent_score cfg hist cache agent t tp).1 =
      applyPenalties cfg agent
        (5 * cfg.skill_match_weight +
          min (agent.experience_level / 10) 1 * 10 * cfg.experience_weight +
          (1 - agent.current_load / cfg.max_load_per_agent) * 10 * cfg.workload_weight +
          priorityCapability agent tp * cfg.priority_weight +
          performanceScore hist agent * 0.1) := by
  rw [calculate_agent_score_eq]
  show applyPenalties cfg agent _ = _
  rw [extract_fst_of_ok cache t hok, hempty]
  unfold agentBaseScore
  simp

theorem ctp_ticket_id (cfg : Config) (t : Ticket) (now : ℚ) :
    (calculate_ticket_priority cfg t now).ticket_id = t.ticket_id := rfl

theorem ctp_urgency (cfg : Config) (t : Ticket) (now : ℚ) :
    (calculate_ticket_priority cfg t now).urgency_level =
      (if (calculate_ticket_priority cfg t now).priority_score ≥ 20 then "CRITICAL"
       else if (calculate_ticket_priority cfg t now).priority_score ≥ 15 then "HIGH"
       else if (calculate_ticket_priority cfg t now).priority_score ≥ 10 then "MEDIUM"
       else "LOW") := rfl

theorem ctp_score_eq_spec (cfg : Config) (t : Ticket) (now : ℚ) :
    (calculate_ticket_priority cfg t now).priority_score =
      specPriorityScore cfg t now := by
  dsimp only [calculate_ticket_priority, specPriorityScore, specCriticalCount,
    specHighCount, specBusinessImpact, specAffectedUsers, specSecurityRisk,
    specTimeUrgency]
  norm_num [security_keywords]
  ring

/-- C3: the priority score equals the specification formula
10 critical + 5 high + 8 impact + users over ten + 9 security + 3 urgency
with the first-match-wins impact and user rules, security risk as keyword
count over eight capped at one, unclamped negative ages, and the urgency
tiers CRITICAL, HIGH, MEDIUM with inclusive lower bounds 20, 15, 10 and LOW
below. -/
theorem claim_C3 (cfg : Config) (t : Ticket) (now : ℚ) :
    (calculate_ticket_priority cfg t now).priority_score = specPriorityScore cfg t now ∧
    ((calculate_ticket_priority cfg t now).urgency_level = "CRITICAL" ↔
      20 ≤ (calculate_ticket_priority cfg t now).priority_score) ∧
    ((calculate_ticket_priority cfg t now).urgency_level = "HIGH" ↔
      (15 ≤ (calculate_ticket_priority cfg t now).priority_score ∧
       (calculate_ticket_priority cfg t now).priority_score < 20)) ∧
    ((calculate_ticket_priority cfg t now).urgency_level = "MEDIUM" ↔
      (10 ≤ (calculate_ticket_priority cfg t now).priority_score ∧
       (calculate_ticket_priority cfg t now).priority_score < 15)) ∧
    ((calculate_ticket_priority cfg t now).urgency_level = "LOW" ↔
      (calculate_ticket_priority cfg t now).priority_score < 10) ∧
    (now < t.creation_timestamp → specTimeUrgency t now < 0) := by
  refine ⟨ctp_score_eq_spec cfg t now, ?_, ?_, ?_, ?_, ?_⟩
  · rw [ctp_urgency]
    split_ifs with h1 h2 h3 <;> simp_all
  · rw [ctp_urgency]
    split_ifs with h1 h2 h3 <;> simp_all
  · rw [ctp_urgency]
    split_ifs with h1 h2 h3 <;> simp_all
    intro _
    linarith
  · rw [ctp_urgency]
    split_ifs with h1 h2 h3 <;> simp_all <;> linarith
  · intro hlt
    unfold specTimeUrgency
    have h1 : ((now - t.creation_timestamp) / 3600) / 24 < 0 := by
      apply div_neg_of_neg_of_pos
      · apply div_neg_of_neg_of_pos
        · linarith
        · norm_num
      · norm_num
    calc min (((now - t.creation_timestamp) / 3600) / 24) 1.0 ≤
        ((now - t.creation_timestamp) / 3600) / 24 := min_le_left _ _
      _ < 0 := h1

theorem claim_C7_witness :
    extract_required_skills_pure tktB = [] ∧
    (calculate_agent_score defaultConfig [] [] agFar tktB tpB).1 =
      applyPenalties defaultConfig agFar
        (5 * defaultConfig.skill_match_weight +
          min (agFar.experience_level / 10) 1 * 10 * defaultConfig.experience_weight +
          (1 - agFar.current_load / defaultConfig.max_load_per_agent) * 10 *
            defaultConfig.workload_weight +
          priorityCapability agFar tpB * defaultConfig.priority_weight +
          performanceScore [] agFar * 0.1) :=
  ⟨by decide,
   claim_C7 defaultConfig [] [] agFar tktB tpB (by decide)
     (by intro r hr; cases hr)⟩

end TicketSystem

namespace TicketSystem

theorem assoc_nodup_val_eq {β : Type} (l : List (String × β))
    (h : (l.map Prod.fst).Nodup) (k : String) (v1 v2 : β)
    (h1 : (k, v1) ∈ l) (h2 : (k, v2) ∈ l) : v1 = v2 := by
  induction l with
  | nil => cases h1
  | cons p l ih =>
    simp only [List.map_cons, List.nodup_cons] at h
    rcases List.mem_cons.mp h1 with e1 | m1
    · rcases List.mem_cons.mp h2 with e2 | m2
      · rw [← e1] at e2; exact (Prod.mk.injEq _ _ _ _).mp e2.symm |>.2
      · exfalso
        apply h.1
        have : p.1 = k := by rw [← e1]
        rw [this]
        exact List.mem_map.mpr ⟨(k, v2), m2, rfl⟩
    · rcases List.mem_cons.mp h2 with e2 | m2
      · exfalso
        apply h.1
        have : p.1 = k := by rw [← e2]
        rw [this]
        exact List.mem_map.mpr ⟨(k, v1), m1, rfl⟩
      · exact ih h.2 m1 m2

theorem skill_keys_nodup : (skill_keywords.map Prod.fst).Nodup := by decide

theorem extract_pure_eq (t : Ticket) :
    extract_required_skills_pure t =
      skill_keywords.filterMap (fun p =>
        if matchCount p.2 (combinedText t) > 0 then
          some (p.1, min ((matchCount p.2 (combinedText t) : ℚ) / (p.2.length : ℚ)) 1)
        else none) := rfl

theorem matchCount_le_length (kws : List String) (text : String) :
    matchCount kws text ≤ kws.length := List.length_filter_le _ _

/-- C8: every lexicon skill with at least one trigger-phrase substring
match in the combined text is assigned importance
min(count over number-of-phrases, 1) in the extracted mapping
(completeness); conversely every entry of the extracted mapping is a
lexicon skill with a positive match count and that importance, which
always lies in the half-open interval from 0 exclusive to 1 inclusive
(soundness); lexicon skills with zero matches are omitted; and the cached
extractor is idempotent: a second call for the same ticket returns the
same mapping and leaves the cache unchanged. -/
theorem claim_C8 :
    (∀ (t : Ticket) (s : String) (kws : List String), (s, kws) ∈ skill_keywords →
      0 < matchCount kws (combinedText t) →
      (s, min ((matchCount kws (combinedText t) : ℚ) / (kws.length : ℚ)) 1) ∈
        extract_required_skills_pure t) ∧
    (∀ (t : Ticket) (p : String × ℚ), p ∈ extract_required_skills_pure t →
      ∃ kws, (p.1, kws) ∈ skill_keywords ∧
        0 < matchCount kws (combinedText t) ∧
        p.2 = min ((matchCount kws (combinedText t) : ℚ) / (kws.length : ℚ)) 1 ∧
        0 < p.2 ∧ p.2 ≤ 1) ∧
    (∀ (t : Ticket) (s : String) (kws : List String), (s, kws) ∈ skill_keywords →
      matchCount kws (combinedText t) = 0 →
      ∀ imp, (s, imp) ∉ extract_required_skills_pure t) ∧
    (∀ (cache : Cache) (t : Ticket),
      extract_required_skills (extract_required_skills cache t).2 t =
        ((extract_required_skills cache t).1, (extract_required_skills cache t).2)) := by
  refine ⟨?_, ?_, ?_, ?_⟩
  · intro t s kws hmem hpos
    rw [extract_pure_eq]
    apply List.mem_filterMap.mpr
    refine ⟨(s, kws), hmem, ?_⟩
    dsimp only
    rw [if_pos hpos]
  · intro t p hp
    rw [extract_pure_eq] at hp
    rcases List.mem_filterMap.mp hp with ⟨q, hq, hfq⟩
    by_cases h0 : matchCount q.2 (combinedText t) > 0
    · rw [if_pos h0] at hfq
      cases Option.some.inj hfq
      have hlen : 0 < q.2.length := lt_of_lt_of_le h0 (matchCount_le_length q.2 _)
      have hposdiv : (0:ℚ) < (matchCount q.2 (combinedText t) : ℚ) / (q.2.length : ℚ) := by
        apply div_pos
        · exact_mod_cast h0
        · exact_mod_cast hlen
      refine ⟨q.2, ?_, h0, rfl, ?_, ?_⟩
      · simpa using hq
      · exact lt_min hposdiv one_pos
      · exact min_le_right _ _
    · rw [if_neg h0] at hfq
      cases hfq
  · intro t s kws hmem h0 imp hin
    rw [extract_pure_eq] at hin
    rcases List.mem_filterMap.mp hin with ⟨q, hq, hfq⟩
    by_cases hc : matchCount q.2 (combinedText t) > 0
    · rw [if_pos hc] at hfq
      have hs : q.1 = s := by
        have := congrArg Prod.fst (Option.some.inj hfq)
        simpa using this
      have hkws : kws = q.2 := by
        apply assoc_nodup_val_eq skill_keywords skill_keys_nodup s
        · exact hmem
        · rw [← hs]; exact hq
      rw [hkws] at h0
      omega
    · rw [if_neg hc] at hfq
      cases hfq
  · intro cache t
    exact extract_of_hit _ t _ (extract_lookup_after cache t)

theorem claim_C8_witness :
    (("Printer_Troubleshooting",
        min ((matchCount ["printer", "print", "printing"] (combinedText tktPrint) : ℚ) /
          ((["printer", "print", "printing"] : List String).length : ℚ)) 1) ∈
      extract_required_skills_pure tktPrint) ∧
    (∃ kws, (("Printer_Troubleshooting" : String), kws) ∈ skill_keywords ∧
      0 < matchCount kws (combinedText tktPrint) ∧
      (1:ℚ) = min ((matchCount kws (combinedText tktPrint) : ℚ) / (kws.length : ℚ)) 1 ∧
      (0:ℚ) < 1 ∧ (1:ℚ) ≤ 1) :=
  ⟨claim_C8.1 tktPrint "Printer_Troubleshooting" ["printer", "print", "printing"]
     (by decide) (by decide),
   claim_C8.2.1 tktPrint ("Printer_Troubleshooting", 1) (by decide)⟩

/-- C10: the skill cache is keyed by ticket id alone: after extracting for
one ticket, extracting for any record with the same ticket id returns the
first mapping unchanged, whatever its title and description, and leaves the
cache untouched. -/
theorem claim_C10 (cache : Cache) (t1 t2 : Ticket)
    (h : t1.ticket_id = t2.ticket_id) :
    extract_required_skills (extract_required_skills cache t1).2 t2 =
      ((extract_required_skills cache t1).1, (extract_required_skills cache t1).2) := by
  apply extract_of_hit
  rw [← h]
  exact extract_lookup_after cache t1

theorem claim_C10_witness :
    tktFirst.ticket_id = tktOther.ticket_id ∧
    extract_required_skills (extract_required_skills [] tktFirst).2 tktOther =
      ((extract_required_skills [] tktFirst).1, (extract_required_skills [] tktFirst).2) :=
  ⟨by decide, claim_C10 [] tktFirst tktOther (by decide)⟩

end TicketSystem

namespace TicketSystem

theorem processTicket_tickets (st : SysState) (tp : TicketPriority) :
    (processTicket st tp).tickets = st.tickets := by
  unfold processTicket
  split
  · rfl
  · dsimp only
    split
    · unfold commitAssign
      split
      · rfl
      · rfl
    · rfl

theorem processTicket_history (st : SysState) (tp : TicketPriority) :
    (processTicket st tp).history = st.history := by
  unfold processTicket
  split
  · rfl
  · dsimp only
    split
    · unfold commitAssign
      split
      · rfl
      · rfl
    · rfl

theorem processTicket_config (st : SysState) (tp : TicketPriority) :
    (processTicket st tp).config = st.config := by
  unfold processTicket
  split
  · rfl
  · dsimp only
    split
    · unfold commitAssign
      split
      · rfl
      · rfl
    · rfl

theorem selStep_foldl_mem (cfg : Config) (hist : History) (t : Ticket)
    (tp : TicketPriority) :
    ∀ (agents : List Agent) (acc : Option String × ℚ × Cache) (aid : String),
      (agents.foldl (selStep cfg hist t tp) acc).1 = some aid →
      acc.1 = some aid ∨ ∃ ag ∈ agents, ag.agent_id = aid := by
  intro agents
  induction agents with
  | nil => intro acc aid h; exact Or.inl h
  | cons ag rest ih =>
    intro acc aid h
    rw [List.foldl_cons] at h
    rcases ih _ _ h with hacc | ⟨ag2, hm, he⟩
    · by_cases hc : (calculate_agent_score cfg hist acc.2.2 ag t tp).1 > acc.2.1
      · simp only [selStep, if_pos hc] at hacc
        exact Or.inr ⟨ag, List.mem_cons_self _ _, Option.some.inj hacc⟩
      · simp only [selStep, if_neg hc] at hacc
        exact Or.inl hacc
    · exact Or.inr ⟨ag2, List.mem_cons_of_mem _ hm, he⟩

theorem selectBest_fst_mem (cfg : Config) (hist : History) (agents : List Agent)
    (cache : Cache) (t : Ticket) (tp : TicketPriority) (aid : String)
    (h : (selectBest cfg hist agents cache t tp).1 = some aid) :
    ∃ ag ∈ agents, ag.agent_id = aid := by
  rcases selStep_foldl_mem cfg hist t tp agents (none, -1, cache) aid h with h0 | hex
  · cases h0
  · exact hex

/-- Every processed ticket priority whose ticket is found appends exactly
one assignment record carrying that ticket id. -/
theorem processTicket_appends (st : SysState) (tp : TicketPriority) (ticket : Ticket)
    (ht : st.tickets.find? (fun t => t.ticket_id == tp.ticket_id) = some ticket) :
    ∃ rec : Assignment, (processTicket st tp).assignments = st.assignments ++ [rec] ∧
      rec.ticket_id = ticket.ticket_id := by
  unfold processTicket
  rw [ht]
  dsimp only
  by_cases hb : pythonTruthy (selectBest st.config st.history st.agents st.cache ticket tp).1
  · rw [if_pos hb]
    cases hsel : (selectBest st.config st.history st.agents st.cache ticket tp).1 with
    | none => rw [hsel] at hb; cases hb
    | some aid =>
      obtain ⟨ag, hmem, hid⟩ :=
        selectBest_fst_mem st.config st.history st.agents st.cache ticket tp aid hsel
      simp only [Option.getD_some]
      have hfind : (st.agents.find? (fun a => a.agent_id == aid)).isSome := by
        apply List.find?_isSome.mpr
        exact ⟨ag, hmem, by simp [hid]⟩
      unfold commitAssign
      cases hf : st.agents.find? (fun a => a.agent_id == aid) with
      | none => rw [hf] at hfind; cases hfind
      | some agent => exact ⟨_, rfl, rfl⟩
  · rw [if_neg hb]
    exact ⟨_, rfl, rfl⟩

/-- Draining a queue of ticket priorities whose ids all belong to loaded
tickets appends one record per queue element, in queue order. -/
theorem foldl_processTicket_appends :
    ∀ (queue : List TicketPriority) (st : SysState),
      (∀ tpq ∈ queue, ∃ t ∈ st.tickets, t.ticket_id = tpq.ticket_id) →
      ∃ recs : List Assignment,
        (queue.foldl processTicket st).assignments = st.assignments ++ recs ∧
        recs.map (fun r => r.ticket_id) = queue.map (fun tpq => tpq.ticket_id) := by
  intro queue
  induction queue with
  | nil => intro st _; exact ⟨[], by simp, rfl⟩
  | cons tp rest ih =>
    intro st hq
    obtain ⟨t0, ht0, hid0⟩ := hq tp (List.mem_cons_self _ _)
    have hfs : (st.tickets.find? (fun t => t.ticket_id == tp.ticket_id)).isSome := by
      apply List.find?_isSome.mpr
      exact ⟨t0, ht0, by simp [hid0]⟩
    cases hf : st.tickets.find? (fun t => t.ticket_id == tp.ticket_id) with
    | none => rw [hf] at hfs; cases hfs
    | some ticket =>
      have htid : ticket.ticket_id = tp.ticket_id := by
        have := List.find?_some hf
        simpa using this
      obtain ⟨rec, hrec, hrid⟩ := processTicket_appends st tp ticket hf
      have hrest : ∀ tpq ∈ rest, ∃ t ∈ (processTicket st tp).tickets,
          t.ticket_id = tpq.ticket_id := by
        intro tpq hm
        rw [processTicket_tickets]
        exact hq tpq (List.mem_cons_of_mem _ hm)
      obtain ⟨recs, hrecs, hrids⟩ := ih (processTicket st tp) hrest
      refine ⟨rec :: recs, ?_, ?_⟩
      · rw [List.foldl_cons, hrecs, hrec, List.append_assoc]
        rfl
      · rw [List.map_cons, List.map_cons, hrids, hrid, htid]

theorem drainOrder_perm (tps : List TicketPriority) :
    List.Perm (drainOrder tps) tps := List.perm_insertionSort tpOrd tps

/-- The whole run appends, to the assignment log, records whose ticket ids
are a permutation of the loaded ticket ids. -/
theorem assign_tickets_log (st : SysState) (now : ℚ) :
    ∃ recs : List Assignment,
      (assign_tickets st now).assignments = st.assignments ++ recs ∧
      List.Perm (recs.map (fun r => r.ticket_id))
        (st.tickets.map (fun t => t.ticket_id)) := by
  have hq : ∀ tpq ∈ drainOrder (st.tickets.map
      (fun t => calculate_ticket_priority st.config t now)),
      ∃ t ∈ st.tickets, t.ticket_id = tpq.ticket_id := by
    intro tpq hm
    have hm2 : tpq ∈ st.tickets.map (fun t => calculate_ticket_priority st.config t now) :=
      (drainOrder_perm _).mem_iff.mp hm
    rcases List.mem_map.mp hm2 with ⟨t, ht, he⟩
    exact ⟨t, ht, by rw [← he, ctp_ticket_id]⟩
  obtain ⟨recs, hrecs, hrids⟩ := foldl_processTicket_appends
    (drainOrder (st.tickets.map (fun t => calculate_ticket_priority st.config t now))) st hq
  refine ⟨recs, hrecs, ?_⟩
  rw [hrids]
  have h1 : List.Perm
      ((drainOrder (st.tickets.map (fun t => calculate_ticket_priority st.config t now))).map
        (fun tpq => tpq.ticket_id))
      ((st.tickets.map (fun t => calculate_ticket_priority st.config t now)).map
        (fun tpq => tpq.ticket_id)) := (drainOrder_perm _).map _
  have h2 : (st.tickets.map (fun t => calculate_ticket_priority st.config t now)).map
      (fun tpq => tpq.ticket_id) = st.tickets.map (fun t => t.ticket_id) := by
    rw [List.map_map]
    rfl
  rw [h2] at h1
  exact h1

end TicketSystem

namespace TicketSystem

theorem map_fst_dictInsert {β : Type} (m : List (String × β)) (k : String) (v : β) :
    (dictInsert m k v).map Prod.fst =
      if (m.find? (fun p => p.1 == k)).isSome then m.map Prod.fst
      else m.map Prod.fst ++ [k] := by
  unfold dictInsert
  split
  · rw [List.map_map]
    apply List.map_congr_left
    intro p hp
    by_cases hpk : (p.1 == k) = true
    · simp only [Function.comp_apply, hpk, if_true]
      exact (beq_iff_eq.mp hpk).symm
    · have hne : ¬ p.1 = k := by simpa using hpk
      simp [hpk, hne]
  · simp

theorem mem_dictInsert {β : Type} (m : List (String × β)) (k : String) (v : β)
    (p : String × β) (hp : p ∈ dictInsert m k v) : p ∈ m ∨ p = (k, v) := by
  unfold dictInsert at hp
  split at hp
  · rcases List.mem_map.mp hp with ⟨q, hq, he⟩
    by_cases hqk : (q.1 == k) = true
    · rw [if_pos hqk] at he
      exact Or.inr he.symm
    · rw [if_neg hqk] at he
      exact Or.inl (he ▸ hq)
  · rcases List.mem_append.mp hp with h | h
    · exact Or.inl h
    · simp at h
      exact Or.inr h

theorem foldl_dictInsert_inv {β : Type} (key : β → String) :
    ∀ (l : List β) (m : List (String × β)),
      (m.map Prod.fst).Nodup → (∀ p ∈ m, p.1 = key p.2) →
      ((l.foldl (fun m b => dictInsert m (key b) b) m).map Prod.fst).Nodup ∧
        (∀ p ∈ l.foldl (fun m b => dictInsert m (key b) b) m, p.1 = key p.2) := by
  intro l
  induction l with
  | nil => intro m h1 h2; exact ⟨h1, h2⟩
  | cons b rest ih =>
    intro m h1 h2
    rw [List.foldl_cons]
    apply ih
    · rw [map_fst_dictInsert]
      split
      · exact h1
      · rename_i hnone
        rw [List.nodup_append]
        refine ⟨h1, List.nodup_singleton _, ?_⟩
        intro a ha hab
        simp only [List.mem_singleton] at hab
        rcases List.mem_map.mp ha with ⟨q, hq, he⟩
        have hfn : m.find? (fun p => p.1 == key b) = none := by
          cases hm : m.find? (fun p => p.1 == key b) with
          | none => rfl
          | some q2 => rw [hm] at hnone; simp at hnone
        have := List.find?_eq_none.mp hfn q hq
        apply this
        rw [he, hab]
        simp
    · intro p hp
      rcases mem_dictInsert m (key b) b p hp with h | h
      · exact h2 p h
      · rw [h]

theorem buildDict_keys_nodup {β : Type} (key : β → String) (l : List β) :
    ((buildDict key l).map Prod.fst).Nodup :=
  (foldl_dictInsert_inv key l [] (by simp) (by simp)).1

theorem buildDict_key_eq {β : Type} (key : β → String) (l : List β) :
    ∀ p ∈ buildDict key l, p.1 = key p.2 :=
  (foldl_dictInsert_inv key l [] (by simp) (by simp)).2

theorem load_data_ticket_ids (A : List AgentIn) (T : List Ticket) :
    (load_data A T).tickets.map (fun t => t.ticket_id) =
      (buildDict (fun t => t.ticket_id) T).map Prod.fst := by
  show ((buildDict (fun t => t.ticket_id) T).map (fun p => p.2)).map (fun t => t.ticket_id) = _
  rw [List.map_map]
  apply List.map_congr_left
  intro p hp
  exact (buildDict_key_eq _ T p hp).symm

theorem load_data_ticket_ids_nodup (A : List AgentIn) (T : List Ticket) :
    ((load_data A T).tickets.map (fun t => t.ticket_id)).Nodup := by
  rw [load_data_ticket_ids]
  exact buildDict_keys_nodup _ T

/-- C1: a full run over any loaded dataset produces an assignment log whose
ticket ids are a permutation of the loaded ticket ids, which are themselves
free of duplicates: every loaded ticket yields exactly one record, with no
omissions and no duplicates. -/
theorem claim_C1 (A : List AgentIn) (T : List Ticket) (now : ℚ) :
    List.Perm
      ((assign_tickets (load_data A T) now).assignments.map (fun r => r.ticket_id))
      ((load_data A T).tickets.map (fun t => t.ticket_id)) ∧
    ((load_data A T).tickets.map (fun t => t.ticket_id)).Nodup := by
  constructor
  · obtain ⟨recs, hrecs, hperm⟩ := assign_tickets_log (load_data A T) now
    rw [hrecs]
    have hnil : (load_data A T).assignments = [] := rfl
    rw [hnil, List.nil_append]
    exact hperm
  · exact load_data_ticket_ids_nodup A T

theorem claim_C9_counterexample :
    validate_ticket tJmissingTitle = true ∧
    calculate_ticket_priorityJ tJmissingTitle 0 = none ∧
    validate_agent aJmissingFields = true ∧
    calculate_agent_scoreJ aJmissingFields tktB tpB = none :=
  ⟨by decide, by decide, by decide, by decide⟩

/-- C9 (amended): priority computation and agent scoring are total over
records carrying every field they dereference (for tickets also title and
creation_timestamp, for agents also experience_level, availability_status
and current_load, none of which the external validator checks), and the
assignment loop runs to completion, producing one record per loaded
ticket. -/
theorem claim_C9 :
    (∀ (tid ti d : String) (ts now : ℚ),
      (calculate_ticket_priorityJ ⟨some tid, some ti, some d, some ts⟩ now).isSome) ∧
    (∀ (aid nm : String) (sk : List (String × ℚ)) (el : ℚ) (av : String) (cl : ℚ)
        (t : Ticket) (tp : TicketPriority),
      (calculate_agent_scoreJ ⟨some aid, some nm, some sk, some el, some av, some cl⟩ t tp).isSome) ∧
    (∀ (A : List AgentIn) (T : List Ticket) (now : ℚ),
      (assign_tickets (load_data A T) now).assignments.length =
        (load_data A T).tickets.length) := by
  refine ⟨fun tid ti d ts now => rfl, fun aid nm sk el av cl t tp => rfl, ?_⟩
  intro A T now
  obtain ⟨recs, hrecs, hperm⟩ := assign_tickets_log (load_data A T) now
  rw [hrecs]
  have hnil : (load_data A T).assignments = [] := rfl
  rw [hnil, List.nil_append]
  have h2 := hperm.length_eq
  rw [List.length_map, List.length_map] at h2
  exact h2

end TicketSystem

namespace TicketSystem

theorem bump_load_diff (agents : List Agent) (aid tid : String) (ps : ℚ) (i : ℕ) :
    ((agents.map (fun a =>
        if a.agent_id == aid then
          ⟨a.agent_id, a.name, a.skills, a.experience_level, a.availability_status,
           a.current_load + 1, a.assigned_tickets ++ [tid],
           a.current_priority_load + ps⟩
        else a)).get? i).map
        (fun a => a.current_load - (a.assigned_tickets.length : ℚ)) =
      (agents.get? i).map
        (fun a => a.current_load - (a.assigned_tickets.length : ℚ)) := by
  rw [List.get?_map, Option.map_map]
  cases hg : agents.get? i with
  | none => rfl
  | some a =>
    simp only [Option.map_some', Function.comp_apply]
    by_cases ha : (a.agent_id == aid) = true
    · rw [if_pos ha]
      show some (a.current_load + 1 - ((a.assigned_tickets ++ [tid]).length : ℚ)) = _
      rw [List.length_append, List.length_singleton]
      push_cast
      ring_nf
    · rw [if_neg ha]

theorem processTicket_load_diff (st : SysState) (tp : TicketPriority) (i : ℕ) :
    ((processTicket st tp).agents.get? i).map
        (fun a => a.current_load - (a.assigned_tickets.length : ℚ)) =
      (st.agents.get? i).map
        (fun a => a.current_load - (a.assigned_tickets.length : ℚ)) := by
  unfold processTicket
  split
  · rfl
  · dsimp only
    split
    · unfold commitAssign
      split
      · rfl
      · exact bump_load_diff st.agents _ _ _ i
    · rfl

theorem foldl_load_diff :
    ∀ (queue : List TicketPriority) (st : SysState) (i : ℕ),
      (((queue.foldl processTicket st).agents.get? i)).map
          (fun a => a.current_load - (a.assigned_tickets.length : ℚ)) =
        (st.agents.get? i).map
          (fun a => a.current_load - (a.assigned_tickets.length : ℚ)) := by
  intro queue
  induction queue with
  | nil => intro st i; rfl
  | cons tp rest ih =>
    intro st i
    rw [List.foldl_cons, ih, processTicket_load_diff]

theorem claim_C5_counterexample :
    ((load_data [agPreIn] []).agents.map (fun a => a.current_load)) = [3] ∧
    ((load_data [agPreIn] []).agents.map (fun a => a.assigned_tickets)) = [[]] := by
  constructor
  · decide
  · decide

/-- C5 (amended): load_data initialises each agent with an empty assigned
list and zero accumulated priority load, but takes current_load over from
the dataset record unchanged; at every step of the run the difference
between an agent's current_load and the length of its assigned list is
preserved, so after a full run current_load equals the dataset load plus
the number of assigned ticket ids (and equals that number exactly when the
dataset load was zero). -/
theorem claim_C5 :
    (∀ (A : List AgentIn) (T : List Ticket) (ag : Agent),
      ag ∈ (load_data A T).agents →
      ag.assigned_tickets = [] ∧ ag.current_priority_load = 0) ∧
    (∀ (st : SysState) (tp : TicketPriority) (i : ℕ),
      ((processTicket st tp).agents.get? i).map
          (fun a => a.current_load - (a.assigned_tickets.length : ℚ)) =
        (st.agents.get? i).map
          (fun a => a.current_load - (a.assigned_tickets.length : ℚ))) ∧
    (∀ (A : List AgentIn) (T : List Ticket) (now : ℚ) (i : ℕ),
      (((assign_tickets (load_data A T) now).agents.get? i)).map
          (fun a => a.current_load - (a.assigned_tickets.length : ℚ)) =
        ((load_data A T).agents.get? i).map (fun a => a.current_load)) := by
  refine ⟨?_, processTicket_load_diff, ?_⟩
  · intro A T ag hag
    rcases List.mem_map.mp hag with ⟨p, hp, he⟩
    rw [← he]
    exact ⟨rfl, rfl⟩
  · intro A T now i
    have hassign : (assign_tickets (load_data A T) now).agents =
        ((drainOrder ((load_data A T).tickets.map
          (fun t => calculate_ticket_priority (load_data A T).config t now))).foldl
            processTicket (load_data A T)).agents := rfl
    have hload : (load_data A T).agents =
        (buildDict (fun a => a.agent_id) A).map (fun p => load_agent p.2) := rfl
    rw [hassign, foldl_load_diff, hload, List.get?_map, Option.map_map,
      Option.map_map]
    cases hg : (buildDict (fun a => a.agent_id) A).get? i with
    | none => rfl
    | some p =>
      simp only [Option.map_some', Function.comp_apply]
      show some (p.2.current_load - ((([] : List String).length : ℕ) : ℚ)) = _
      norm_num
      rfl

theorem claim_C5_witness :
    (load_agent agPreIn) ∈ (load_data [agPreIn] []).agents ∧
    (load_agent agPreIn).assigned_tickets = [] ∧
    (load_agent agPreIn).current_priority_load = 0 :=
  ⟨by decide, claim_C5.1 [agPreIn] [] (load_agent agPreIn) (by decide)⟩

end TicketSystem

namespace TicketSystem

theorem claim_C2_counterexample :
    (load_data [agOverIn] [tktB]).agents.length = 1 ∧
    (assign_tickets (load_data [agOverIn] [tktB]) 0).assignments.map
      (fun r => r.assigned_agent_id) = [none] :=
  ⟨by decide, by decide⟩

/-- C2 (amended): a drained ticket is committed exactly when the inner loop
ends with a truthy best agent id, which requires some agent to score
strictly above the initial best_score of minus one; an explicitly
unassigned record (null id, UNASSIGNED name, the fixed escalation
rationale) is produced whenever the agent dict is empty, and also when
every agent scores at most minus one or the winning id is the empty
string; in the concrete 0-agents-1-ticket run the single record has a null
agent id and the fixed non-empty rationale and analytics reports one
unassigned ticket. -/
theorem claim_C2 :
    (∀ (st : SysState) (tp : TicketPriority) (ticket : Ticket),
      st.agents = [] →
      st.tickets.find? (fun t => t.ticket_id == tp.ticket_id) = some ticket →
      (processTicket st tp).assignments =
        st.assignments ++ [unassignedRecord ticket tp] ∧
      (unassignedRecord ticket tp).assigned_agent_id = none ∧
      (unassignedRecord ticket tp).assigned_agent_name = "UNASSIGNED" ∧
      (unassignedRecord ticket tp).rationale =
        "No suitable agent available - requires escalation or additional resources") ∧
    (∀ (st : SysState) (tp : TicketPriority) (ticket : Ticket) (aid : String),
      st.tickets.find? (fun t => t.ticket_id == tp.ticket_id) = some ticket →
      (selectBest st.config st.history st.agents st.cache ticket tp).1 = some aid →
      aid ≠ "" →
      ∃ agent : Agent, st.agents.find? (fun a => a.agent_id == aid) = some agent ∧
        (processTicket st tp).agents = st.agents.map (fun a =>
          if a.agent_id == aid then
            ⟨a.agent_id, a.name, a.skills, a.experience_level, a.availability_status,
             a.current_load + 1, a.assigned_tickets ++ [ticket.ticket_id],
             a.current_priority_load + tp.priority_score⟩
          else a) ∧
        ∃ rec : Assignment,
          (processTicket st tp).assignments = st.assignments ++ [rec] ∧
          rec.assigned_agent_id = some aid ∧
          rec.assigned_agent_name = agent.name ∧
          rec.ticket_id = ticket.ticket_id) ∧
    ((load_data [] [tktB]).agents = [] ∧
      (assign_tickets (load_data [] [tktB]) 0).assignments.map
        (fun r => r.assigned_agent_id) = [none] ∧
      (assign_tickets (load_data [] [tktB]) 0).assignments.map
        (fun r => r.rationale) =
        ["No suitable agent available - requires escalation or additional resources"] ∧
      (generate_analytics_summary
        (assign_tickets (load_data [] [tktB]) 0)).unassigned_tickets = 1) := by
  refine ⟨?_, ?_, by decide, by decide, by decide, by decide⟩
  · intro st tp ticket hA ht
    refine ⟨?_, rfl, rfl, rfl⟩
    unfold processTicket
    rw [ht, hA]
    rfl
  · intro st tp ticket aid ht hsel haid
    have htruthy : pythonTruthy (selectBest st.config st.history st.agents
        st.cache ticket tp).1 = true := by
      rw [hsel]
      simp [pythonTruthy, haid]
    obtain ⟨ag, hmem, hid⟩ :=
      selectBest_fst_mem st.config st.history st.agents st.cache ticket tp aid hsel
    have hfind : (st.agents.find? (fun a => a.agent_id == aid)).isSome := by
      apply List.find?_isSome.mpr
      exact ⟨ag, hmem, by simp [hid]⟩
    cases hf : st.agents.find? (fun a => a.agent_id == aid) with
    | none => rw [hf] at hfind; cases hfind
    | some agent =>
      refine ⟨agent, rfl, ?_, ?_⟩
      · unfold processTicket
        rw [ht]
        dsimp only
        rw [if_pos htruthy, hsel]
        simp only [Option.getD_some]
        unfold commitAssign
        rw [hf]
      · unfold processTicket
        rw [ht]
        dsimp only
        rw [if_pos htruthy, hsel]
        simp only [Option.getD_some]
        unfold commitAssign
        rw [hf]
        exact ⟨_, rfl, rfl, rfl, rfl⟩

end TicketSystem

namespace TicketSystem

theorem claim_C2_witness :
    ((load_data [agNorm] [tktB]).tickets.find?
        (fun t => t.ticket_id == tpB.ticket_id) = some tktB) ∧
    ((selectBest (load_data [agNorm] [tktB]).config (load_data [agNorm] [tktB]).history
        (load_data [agNorm] [tktB]).agents (load_data [agNorm] [tktB]).cache
        tktB tpB).1 = some "A3") ∧
    (("A3" : String) ≠ "") ∧
    (∃ agent : Agent, (load_data [agNorm] [tktB]).agents.find?
        (fun a => a.agent_id == "A3") = some agent ∧
      (processTicket (load_data [agNorm] [tktB]) tpB).agents =
        (load_data [agNorm] [tktB]).agents.map (fun a =>
          if a.agent_id == "A3" then
            ⟨a.agent_id, a.name, a.skills, a.experience_level, a.availability_status,
             a.current_load + 1, a.assigned_tickets ++ [tktB.ticket_id],
             a.current_priority_load + tpB.priority_score⟩
          else a) ∧
      ∃ rec : Assignment,
        (processTicket (load_data [agNorm] [tktB]) tpB).assignments =
          (load_data [agNorm] [tktB]).assignments ++ [rec] ∧
        rec.assigned_agent_id = some "A3" ∧
        rec.assigned_agent_name = agent.name ∧
        rec.ticket_id = tktB.ticket_id) :=
  ⟨by decide, by decide, by decide,
   claim_C2.2.1 (load_data [agNorm] [tktB]) tpB tktB "A3"
     (by decide) (by decide) (by decide)⟩

end TicketSystem

namespace TicketSystem

theorem foldlMax_cons (s0 : ℚ) (p : String × ℚ) (l : List (String × ℚ)) :
    foldlMax s0 (p :: l) = foldlMax (max s0 p.2) l := rfl

theorem le_foldlMax : ∀ (l : List (String × ℚ)) (s0 : ℚ), s0 ≤ foldlMax s0 l := by
  intro l
  induction l with
  | nil => intro s0; exact le_refl s0
  | cons p rest ih =>
    intro s0
    rw [foldlMax_cons]
    exact le_trans (le_max_left s0 p.2) (ih (max s0 p.2))

theorem foldlMax_of_le : ∀ (l : List (String × ℚ)) (s0 : ℚ),
    (∀ p ∈ l, p.2 ≤ s0) → foldlMax s0 l = s0 := by
  intro l
  induction l with
  | nil => intro s0 _; rfl
  | cons p rest ih =>
    intro s0 h
    rw [foldlMax_cons, max_eq_left (h p (List.mem_cons_self _ _))]
    exact ih s0 (fun q hq => h q (List.mem_cons_of_mem _ hq))

theorem selAux_snd : ∀ (l : List (String × ℚ)) (acc : Option String × ℚ),
    (selAux acc l).2 = foldlMax acc.2 l := by
  intro l
  induction l with
  | nil => intro acc; rfl
  | cons p rest ih =>
    intro acc
    rw [foldlMax_cons]
    show (if p.2 > acc.2 then selAux (some p.1, p.2) rest else selAux acc rest).2 = _
    by_cases h : p.2 > acc.2
    · rw [if_pos h, ih, max_eq_right (le_of_lt h)]
    · rw [if_neg h, ih, max_eq_left (le_of_not_lt h)]

theorem selAux_fst : ∀ (l : List (String × ℚ)) (acc : Option String × ℚ),
    (selAux acc l).1 =
      if foldlMax acc.2 l > acc.2 then
        (l.find? (fun p => p.2 == foldlMax acc.2 l)).map Prod.fst
      else acc.1 := by
  intro l
  induction l with
  | nil =>
    intro acc
    show acc.1 = if acc.2 > acc.2 then _ else acc.1
    rw [if_neg (lt_irrefl acc.2)]
  | cons p rest ih =>
    intro acc
    rw [foldlMax_cons]
    show (if p.2 > acc.2 then selAux (some p.1, p.2) rest else selAux acc rest).1 = _
    by_cases h : p.2 > acc.2
    · rw [if_pos h, ih (some p.1, p.2)]
      have hM : foldlMax (max acc.2 p.2) rest = foldlMax p.2 rest := by
        rw [max_eq_right (le_of_lt h)]
      rw [hM]
      have hMge : p.2 ≤ foldlMax p.2 rest := le_foldlMax rest p.2
      have houter : foldlMax p.2 rest > acc.2 := lt_of_lt_of_le h hMge
      rw [if_pos houter]
      by_cases hMp : foldlMax p.2 rest = p.2
      · rw [if_neg (by rw [hMp]; exact lt_irrefl p.2)]
        rw [List.find?_cons_of_pos _ (by simp [hMp])]
        rfl
      · have hlt : p.2 < foldlMax p.2 rest := lt_of_le_of_ne hMge (fun he => hMp he.symm)
        rw [if_pos hlt]
        rw [List.find?_cons_of_neg _ (by simp; exact fun he => hMp he.symm)]
    · rw [if_neg h, ih acc]
      have hle : p.2 ≤ acc.2 := le_of_not_lt h
      have hM : foldlMax (max acc.2 p.2) rest = foldlMax acc.2 rest := by
        rw [max_eq_left hle]
      rw [hM]
      by_cases hM2 : foldlMax acc.2 rest > acc.2
      · rw [if_pos hM2, if_pos hM2]
        rw [List.find?_cons_of_neg _ (by
          simp
          intro he
          rw [he] at hle
          exact absurd hM2 (not_lt_of_le hle))]
      · rw [if_neg hM2, if_neg hM2]

theorem selectBest_eq_selAux (cfg : Config) (hist : History) (t : Ticket)
    (tp : TicketPriority) :
    ∀ (agents : List Agent) (acc : Option String × ℚ × Cache),
      CacheOKFor acc.2.2 t →
      (agents.foldl (selStep cfg hist t tp) acc).1 =
        (selAux (acc.1, acc.2.1)
          (agents.map (fun ag => (ag.agent_id, agentScore cfg hist ag t tp)))).1 ∧
      (agents.foldl (selStep cfg hist t tp) acc).2.1 =
        (selAux (acc.1, acc.2.1)
          (agents.map (fun ag => (ag.agent_id, agentScore cfg hist ag t tp)))).2 := by
  intro agents
  induction agents with
  | nil => intro acc _; exact ⟨rfl, rfl⟩
  | cons ag rest ih =>
    intro acc hok
    have hs1 : (calculate_agent_score cfg hist acc.2.2 ag t tp).1 =
        agentScore cfg hist ag t tp :=
      calculate_agent_score_fst cfg hist acc.2.2 ag t tp hok
    have hok2 : CacheOKFor (calculate_agent_score cfg hist acc.2.2 ag t tp).2 t := by
      rw [calculate_agent_score_snd]
      exact CacheOKFor_extract_snd acc.2.2 t hok
    rw [List.foldl_cons, List.map_cons]
    show _ ∧ _
    have hsel : ∀ acc2 : Option String × ℚ,
        selAux acc2 ((ag.agent_id, agentScore cfg hist ag t tp) ::
          rest.map (fun a => (a.agent_id, agentScore cfg hist a t tp))) =
        (if agentScore cfg hist ag t tp > acc2.2 then
          selAux (some ag.agent_id, agentScore cfg hist ag t tp)
            (rest.map (fun a => (a.agent_id, agentScore cfg hist a t tp)))
        else
          selAux acc2
            (rest.map (fun a => (a.agent_id, agentScore cfg hist a t tp)))) :=
      fun acc2 => rfl
    by_cases hgt : agentScore cfg hist ag t tp > acc.2.1
    · have hstep : selStep cfg hist t tp acc ag =
          (some ag.agent_id, (calculate_agent_score cfg hist acc.2.2 ag t tp).1,
           (calculate_agent_score cfg hist acc.2.2 ag t tp).2) := by
        unfold selStep
        rw [if_pos (by rw [hs1]; exact hgt)]
      rw [hstep, hsel, if_pos hgt, hs1]
      exact ih _ hok2
    · have hstep : selStep cfg hist t tp acc ag =
          (acc.1, acc.2.1, (calculate_agent_score cfg hist acc.2.2 ag t tp).2) := by
        unfold selStep
        rw [if_neg (by rw [hs1]; exact hgt)]
      rw [hstep, hsel, if_neg hgt]
      exact ih (acc.1, acc.2.1, (calculate_agent_score cfg hist acc.2.2 ag t tp).2) hok2

theorem bestScoreSpec_eq_foldlMax (cfg : Config) (hist : History)
    (agents : List Agent) (t : Ticket) (tp : TicketPriority) :
    bestScoreSpec cfg hist agents t tp =
      foldlMax (-1) (agents.map (fun ag => (ag.agent_id, agentScore cfg hist ag t tp))) := by
  unfold bestScoreSpec agentScores foldlMax
  rw [List.foldl_map, List.foldl_map]

end TicketSystem

namespace TicketSystem

theorem selectBest_spec (cfg : Config) (hist : History) (agents : List Agent)
    (cache : Cache) (t : Ticket) (tp : TicketPriority) (hok : CacheOKFor cache t) :
    (selectBest cfg hist agents cache t tp).2.1 = bestScoreSpec cfg hist agents t tp ∧
    (selectBest cfg hist agents cache t tp).1 =
      (selectedAgentSpec cfg hist agents t tp).map (fun ag => ag.agent_id) := by
  obtain ⟨h1, h2⟩ := selectBest_eq_selAux cfg hist t tp agents (none, -1, cache) hok
  constructor
  · show (agents.foldl (selStep cfg hist t tp) (none, -1, cache)).2.1 = _
    rw [h2, selAux_snd, bestScoreSpec_eq_foldlMax]
  · show (agents.foldl (selStep cfg hist t tp) (none, -1, cache)).1 = _
    rw [h1, selAux_fst]
    unfold selectedAgentSpec
    rw [bestScoreSpec_eq_foldlMax]
    by_cases hc : foldlMax (-1)
        (agents.map (fun ag => (ag.agent_id, agentScore cfg hist ag t tp))) > -1
    · rw [if_pos hc, if_pos hc, List.find?_map, Option.map_map]
      rfl
    · rw [if_neg hc, if_neg hc]
      rfl

theorem selectBest_soft (cfg : Config) (hist : History) (cache : Cache)
    (t : Ticket) (tp : TicketPriority) (ag0 : Agent) (rest : List Agent)
    (hok : CacheOKFor cache t)
    (_hav : ag0.availability_status ≠ "Available")
    (_hload : cfg.max_load_per_agent ≤ ag0.current_load)
    (hothers : ∀ ag ∈ rest,
      agentScore cfg hist ag t tp < agentScore cfg hist ag0 t tp)
    (hpos : (-1 : ℚ) < agentScore cfg hist ag0 t tp) :
    (selectBest cfg hist (ag0 :: rest) cache t tp).1 = some ag0.agent_id := by
  have hM : bestScoreSpec cfg hist (ag0 :: rest) t tp =
      agentScore cfg hist ag0 t tp := by
    rw [bestScoreSpec_eq_foldlMax, List.map_cons, foldlMax_cons]
    show foldlMax (max (-1) (agentScore cfg hist ag0 t tp)) _ = _
    rw [max_eq_right (le_of_lt hpos)]
    apply foldlMax_of_le
    intro p hp
    rcases List.mem_map.mp hp with ⟨ag, hag, he⟩
    rw [← he]
    exact le_of_lt (hothers ag hag)
  rw [(selectBest_spec cfg hist (ag0 :: rest) cache t tp hok).2]
  unfold selectedAgentSpec
  rw [hM, if_pos hpos, List.find?_cons_of_pos _ (by simp)]
  rfl

theorem drainOrder_sorted (tps : List TicketPriority) :
    List.Pairwise (fun a b => b.priority_score ≤ a.priority_score)
      (drainOrder tps) :=
  List.sorted_insertionSort tpOrd tps

/-- C4: heap draining yields the tickets in non-increasing priority_score
order; the inner loop realises the specification selection rule of scoring
every agent and taking the first agent attaining the maximal score, with
an agent selected exactly when the maximum strictly exceeds the initial
best_score of minus one; and neither availability nor load hard-filters an
agent: an unavailable, over-capacity agent is still selected whenever every
other agent scores strictly lower and its own score exceeds minus one. -/
theorem claim_C4 :
    (∀ tps : List TicketPriority,
      List.Pairwise (fun a b => b.priority_score ≤ a.priority_score)
        (drainOrder tps)) ∧
    (∀ (cfg : Config) (hist : History) (agents : List Agent) (cache : Cache)
        (t : Ticket) (tp : TicketPriority), CacheOKFor cache t →
      (selectBest cfg hist agents cache t tp).2.1 =
        bestScoreSpec cfg hist agents t tp ∧
      (selectBest cfg hist agents cache t tp).1 =
        (selectedAgentSpec cfg hist agents t tp).map (fun ag => ag.agent_id)) ∧
    (∀ (cfg : Config) (hist : History) (cache : Cache) (t : Ticket)
        (tp : TicketPriority) (ag0 : Agent) (rest : List Agent),
      CacheOKFor cache t →
      ag0.availability_status ≠ "Available" →
      cfg.max_load_per_agent ≤ ag0.current_load →
      (∀ ag ∈ rest, agentScore cfg hist ag t tp < agentScore cfg hist ag0 t tp) →
      (-1 : ℚ) < agentScore cfg hist ag0 t tp →
      (selectBest cfg hist (ag0 :: rest) cache t tp).1 = some ag0.agent_id) :=
  ⟨drainOrder_sorted, selectBest_spec, selectBest_soft⟩

theorem claim_C4_witness :
    agBusy.availability_status ≠ "Available" ∧
    defaultConfig.max_load_per_agent ≤ agBusy.current_load ∧
    (∀ ag ∈ [agFar], agentScore defaultConfig [] ag tktB tpB <
      agentScore defaultConfig [] agBusy tktB tpB) ∧
    ((-1 : ℚ) < agentScore defaultConfig [] agBusy tktB tpB) ∧
    (selectBest defaultConfig [] [agBusy, agFar] [] tktB tpB).1 =
      some agBusy.agent_id :=
  ⟨by decide, by decide, by decide, by decide,
   claim_C4.2.2 defaultConfig [] [] tktB tpB agBusy [agFar]
     (fun r hr => by cases hr) (by decide) (by decide) (by decide) (by decide)⟩

end TicketSystem
